import Mathlib

/-!
Verification of the weg_li_api retrying request executor.

Shallow embedding of `src/api/request.rs` (the retrying request executor),
`src/api/error.rs` (the error taxonomy) and the retry-relevant parts of the
resource fetchers (`src/api/charge.rs`, `notice.rs`, `district.rs`,
`export.rs`) and the public client (`src/api/mod.rs`) of the `weg_li_api`
crate, together with theorems about the retry/backoff behaviour.

Machine integers are modelled as `Nat` with explicit reduction modulo `2^64`
where u64 overflow matters.  The unchecked Rust multiplication
`initial_backoff_ms * exp` in `execute_request` is modelled with release-build
(wrapping) semantics, i.e. reduction modulo `2^64`; in debug builds the same
expression panics on overflow.  The recursion of `execute_request` is
embedded with a fuel parameter; `execute_request` supplies
`max_retries + 1` fuel, which is enough for every chain whose initial
`retry_count` does not exceed `max_retries` (all callers in the crate start
chains at `retry_count = 0`), and `none` marks a chain that did not
terminate within the supplied fuel.
-/

deriving instance DecidableEq for Except

namespace WegLi

/-- The modulus `2^64`, the number of values of Rust's `u64`. -/
def U64_MOD : Nat := 2 ^ 64

/-- Rust struct `RetrySettings` from `src/types/request.rs` (u32/u64 fields as `Nat`). -/
structure RetrySettings where
  max_retries : Nat
  initial_backoff_ms : Nat
  backoff_multiplier : Nat
  deriving Repr, DecidableEq

/-- Rust struct `RetryData` from `src/api/request.rs`. -/
structure RetryData where
  settings : RetrySettings
  retry_count : Nat
  deriving Repr, DecidableEq

/-- Constant `DEFAULT_RETRY_SETTINGS` from `src/api/request.rs`. -/
def DEFAULT_RETRY_SETTINGS : RetrySettings :=
  { initial_backoff_ms := 300
    max_retries := 5
    backoff_multiplier := 2 }

/-- The `ApiError` variants of `src/api/error.rs` that the executor produces
(the rate-limited variant is the one constructed as `TooManyRequests` in
`src/api/request.rs`; `Reqwest` stands for a transport-level send failure,
its payload being irrelevant to the executor's control flow). -/
inductive ApiError where
  | TooManyRequests (retry_after : Option Nat)
  | Reqwest
  | UnexpectedStatusCode (status : Nat)
  | BackoffOverflow (msg : String)
  | RequestBuilderClone
  deriving Repr, DecidableEq

/-- An HTTP response as the executor observes it: a status code and the
header list (name/value pairs, in order). -/
structure Response where
  status : Nat
  headers : List (String × String)
  deriving Repr, DecidableEq

/-- Rust `reqwest::StatusCode::is_success`: the 2xx range `200..300`. -/
def status_is_success (s : Nat) : Bool :=
  200 ≤ s && s < 300

/-- Lower-casing of one ASCII byte, as in `eq_ignore_ascii_case` of the
`http` crate. -/
def ascii_to_lower_nat (c : Char) : Nat :=
  if 65 ≤ c.toNat && c.toNat ≤ 90 then c.toNat + 32 else c.toNat

/-- The comparison `header.0 == "Retry-After"` performed in `err_response`:
`http::HeaderName`'s equality with a string is ASCII-case-insensitive. -/
def header_name_eq_retry_after (name : String) : Bool :=
  name.data.map ascii_to_lower_nat == "Retry-After".data.map ascii_to_lower_nat

/-- Rust `http::HeaderValue::to_str`: succeeds iff every byte of the value is
visible ASCII (32..=126) or horizontal tab; the successful result is the
value itself. -/
def header_value_to_str (v : String) : Option String :=
  if v.data.all (fun c => (32 ≤ c.toNat && c.toNat ≤ 126) || c.toNat == 9) then
    some v
  else
    none

/-- Digit-string accumulation of `u64::from_str` (after the optional sign):
at least one character, all ASCII digits. -/
def parse_u64_digits (cs : List Char) : Option Nat :=
  match cs with
  | [] => none
  | _ =>
    if cs.all (fun c => c.isDigit) then
      some (cs.foldl (fun acc c => acc * 10 + (c.toNat - 48)) 0)
    else
      none

/-- Rust `str::parse::<u64>`: optional leading `+`, one or more base-10 digits,
value must fit in u64 (overflow is an error, not a wrap). -/
def parse_u64 (s : String) : Option Nat :=
  let ds := match s.data with
    | '+' :: rest => rest
    | other => other
  match parse_u64_digits ds with
  | none => none
  | some n => if n < U64_MOD then some n else none

/-- Function `err_response` from `src/api/request.rs` lines 20-40. -/
def err_response (r : Response) : ApiError :=
  if r.status = 429 ∨ r.status = 503 then
    match r.headers.find? (fun h => header_name_eq_retry_after h.1) with
    | none => ApiError.TooManyRequests none
    | some h =>
      match header_value_to_str h.2 with
      | none => ApiError.TooManyRequests none
      | some header_str =>
        match parse_u64 header_str with
        | none => ApiError.TooManyRequests none
        | some retry_after_value => ApiError.TooManyRequests (some retry_after_value)
  else
    ApiError.UnexpectedStatusCode r.status

/-- Outcome of one physical `send()` on the transport. -/
inductive SendOutcome where
  | transportError
  | response (r : Response)
  deriving Repr, DecidableEq

/-- Rust `u64::checked_pow`: `some (base ^ exp)` iff the mathematical power fits
in u64, `none` on overflow. -/
def checked_pow (base exp : Nat) : Option Nat :=
  if base ^ exp < U64_MOD then some (base ^ exp) else none

/-- What one iteration of `execute_request` decides after the `send`:
either the call terminates (`done`, recording the result and how many
physical sends this iteration performed), or the chain sleeps for `delay`
milliseconds and re-enters with the derived retry data `next`. -/
inductive StepOutcome where
  | done (result : Except ApiError Response) (sends : Nat)
  | retry (delay : Nat) (next : RetryData)
  deriving Repr, DecidableEq

/-- One iteration of `execute_request` (`src/api/request.rs` lines 46-84):
the `try_clone` check, the `send`, the success test, the retry-budget test,
the `checked_pow` backoff computation and the unchecked (wrapping)
multiplication by `initial_backoff_ms`. -/
def execute_step (cloneable : Bool) (outcome : SendOutcome)
    (retry_data : Option RetryData) : StepOutcome :=
  if cloneable then
    match outcome with
    | SendOutcome.transportError => StepOutcome.done (Except.error ApiError.Reqwest) 1
    | SendOutcome.response response =>
      if status_is_success response.status then
        StepOutcome.done (Except.ok response) 1
      else
        match retry_data with
        | none => StepOutcome.done (Except.error (err_response response)) 1
        | some rd =>
          if rd.retry_count = rd.settings.max_retries ∨ rd.settings.max_retries = 0 then
            StepOutcome.done (Except.error (err_response response)) 1
          else
            match checked_pow rd.settings.backoff_multiplier (rd.retry_count + 1) with
            | none =>
              StepOutcome.done
                (Except.error (ApiError.BackoffOverflow "exceeded maximum backoff value")) 1
            | some exp =>
              StepOutcome.retry ((rd.settings.initial_backoff_ms * exp) % U64_MOD)
                { settings := rd.settings, retry_count := rd.retry_count + 1 }
  else
    StepOutcome.done (Except.error ApiError.RequestBuilderClone) 0

/-- Observable trace of one `execute_request` call chain: the final result,
the number of physical send attempts, the delays slept before each retry
(in order), and the retry argument at the entry of each (recursive)
invocation of the executor. -/
structure ExecTrace where
  result : Except ApiError Response
  sends : Nat
  delays : List Nat
  states : List (Option RetryData)
  deriving Repr, DecidableEq

/-- The recursion of `execute_request` (`src/api/request.rs` line 86),
driven by `execute_step`, with a fuel bound on the recursion depth.
`transport i` is the outcome of the `i`-th physical send of the chain. -/
def execute_rec (cloneable : Bool) (transport : Nat → SendOutcome) :
    Nat → Option RetryData → Nat → Option ExecTrace
  | 0, _, _ => none
  | fuel + 1, retry_data, idx =>
    match execute_step cloneable (transport idx) retry_data with
    | StepOutcome.done res n =>
      some { result := res, sends := n, delays := [], states := [retry_data] }
    | StepOutcome.retry delay next =>
      match execute_rec cloneable transport fuel (some next) (idx + 1) with
      | none => none
      | some rest =>
        some { result := rest.result
               sends := 1 + rest.sends
               delays := delay :: rest.delays
               states := retry_data :: rest.states }

/-- Function `execute_request` from `src/api/request.rs`: `cloneable` is whether
`request_builder.try_clone()` succeeds (a property of the request, constant
across the chain).  Fuel `max_retries + 1` covers every chain whose initial
`retry_count` is at most `max_retries`. -/
def execute_request (cloneable : Bool) (transport : Nat → SendOutcome)
    (retry_data : Option RetryData) : Option ExecTrace :=
  execute_rec cloneable transport
    (match retry_data with
     | none => 1
     | some rd => rd.settings.max_retries + 1)
    retry_data 0

/-- The retry argument `get_charge_from_wegli_api` (`src/api/charge.rs`)
passes to `execute_request`. -/
def get_charge_retry_arg (retry_settings : Option RetrySettings) : Option RetryData :=
  some { retry_count := 0
         settings := match retry_settings with
           | some settings => settings
           | none => DEFAULT_RETRY_SETTINGS }

/-- The retry argument `get_charges_from_wegli_api` (`src/api/charge.rs`)
passes to `execute_request`. -/
def get_charges_retry_arg (retry_settings : Option RetrySettings) : Option RetryData :=
  some { retry_count := 0
         settings := match retry_settings with
           | some settings => settings
           | none => DEFAULT_RETRY_SETTINGS }

/-- The retry argument `get_notice_from_wegli_api` (`src/api/notice.rs`)
passes to `execute_request`. -/
def get_notice_retry_arg (retry_settings : Option RetrySettings) : Option RetryData :=
  some { retry_count := 0
         settings := match retry_settings with
           | some settings => settings
           | none => DEFAULT_RETRY_SETTINGS }

/-- The retry argument `get_notices_from_wegli_api` (`src/api/notice.rs`)
passes to `execute_request`. -/
def get_notices_retry_arg (retry_settings : Option RetrySettings) : Option RetryData :=
  some { retry_count := 0
         settings := match retry_settings with
           | some settings => settings
           | none => DEFAULT_RETRY_SETTINGS }

/-- The retry argument `get_district_from_wegli_api` (`src/api/district.rs`)
passes to `execute_request`. -/
def get_district_retry_arg (retry_settings : Option RetrySettings) : Option RetryData :=
  some { retry_count := 0
         settings := match retry_settings with
           | some settings => settings
           | none => DEFAULT_RETRY_SETTINGS }

/-- The retry argument `get_districts_from_wegli_api` (`src/api/district.rs`)
passes to `execute_request`. -/
def get_districts_retry_arg (retry_settings : Option RetrySettings) : Option RetryData :=
  some { retry_count := 0
         settings := match retry_settings with
           | some settings => settings
           | none => DEFAULT_RETRY_SETTINGS }

/-- The retry argument `get_exports_from_wegli_api` (`src/api/export.rs`)
passes to `execute_request` (the `public` flag does not enter the retry
data). -/
def get_exports_retry_arg (retry_settings : Option RetrySettings) : Option RetryData :=
  some { retry_count := 0
         settings := match retry_settings with
           | some settings => settings
           | none => DEFAULT_RETRY_SETTINGS }

/-- Function `download_latest_export_from_wegli` (`src/api/export.rs`) reaches the
executor only through `get_exports_from_wegli_api`, forwarding its
`retry_settings` unchanged. -/
def download_latest_export_retry_arg (retry_settings : Option RetrySettings) :
    Option RetryData :=
  get_exports_retry_arg retry_settings

/-- Rust struct `WegLiApiClient` from `src/api/mod.rs` (the fields the retry behaviour
depends on). -/
structure WegLiApiClient where
  api_url : String
  api_token : String
  retry_settings : Option RetrySettings

/-- Retry argument reaching the executor from `WegLiApiClient::get_notice`. -/
def WegLiApiClient.get_notice_arg (c : WegLiApiClient) : Option RetryData :=
  get_notice_retry_arg c.retry_settings

/-- Retry argument reaching the executor from `WegLiApiClient::get_notices`. -/
def WegLiApiClient.get_notices_arg (c : WegLiApiClient) : Option RetryData :=
  get_notices_retry_arg c.retry_settings

/-- Retry argument reaching the executor from `WegLiApiClient::get_charge`. -/
def WegLiApiClient.get_charge_arg (c : WegLiApiClient) : Option RetryData :=
  get_charge_retry_arg c.retry_settings

/-- Retry argument reaching the executor from `WegLiApiClient::get_charges`. -/
def WegLiApiClient.get_charges_arg (c : WegLiApiClient) : Option RetryData :=
  get_charges_retry_arg c.retry_settings

/-- Retry argument reaching the executor from `WegLiApiClient::get_district`. -/
def WegLiApiClient.get_district_arg (c : WegLiApiClient) : Option RetryData :=
  get_district_retry_arg c.retry_settings

/-- Retry argument reaching the executor from `WegLiApiClient::get_districts`. -/
def WegLiApiClient.get_districts_arg (c : WegLiApiClient) : Option RetryData :=
  get_districts_retry_arg c.retry_settings

/-- Retry argument reaching the executor from
`WegLiApiClient::get_user_exports` (`public = false`). -/
def WegLiApiClient.get_user_exports_arg (c : WegLiApiClient) : Option RetryData :=
  get_exports_retry_arg c.retry_settings

/-- Retry argument reaching the executor from
`WegLiApiClient::get_public_exports` (`public = true`). -/
def WegLiApiClient.get_public_exports_arg (c : WegLiApiClient) : Option RetryData :=
  get_exports_retry_arg c.retry_settings

/-- Retry argument reaching the executor from
`WegLiApiClient::download_latest_export`. -/
def WegLiApiClient.download_latest_export_arg (c : WegLiApiClient) : Option RetryData :=
  download_latest_export_retry_arg c.retry_settings

/-- Every terminal iteration of a cloneable chain performs exactly one
physical send. -/
theorem execute_step_done_sends_one {o : SendOutcome} {rd : Option RetryData}
    {res : Except ApiError Response} {n : Nat}
    (h : execute_step true o rd = StepOutcome.done res n) : n = 1 := by
  unfold execute_step at h
  rw [if_pos rfl] at h
  repeat' split at h
  all_goals simp_all

/-- A terminal iteration performs at most one physical send (zero exactly
when the request builder cannot be cloned). -/
theorem execute_step_done_sends_le {cl : Bool} {o : SendOutcome} {rd : Option RetryData}
    {res : Except ApiError Response} {n : Nat}
    (h : execute_step cl o rd = StepOutcome.done res n) : n ≤ 1 := by
  unfold execute_step at h
  repeat' split at h
  all_goals simp_all
  all_goals omega

/-- Characterisation of a retry decision: the derived retry data keeps the
settings and increments only the counter, the slept delay is the wrapped
product `initial_backoff_ms * multiplier ^ (count + 1)`, the budget was not
exhausted, and the exponentiation did not overflow u64. -/
theorem execute_step_retry_spec {cl : Bool} {o : SendOutcome} {rd : RetryData}
    {d : Nat} {next : RetryData}
    (h : execute_step cl o (some rd) = StepOutcome.retry d next) :
    next = { settings := rd.settings, retry_count := rd.retry_count + 1 } ∧
    d = (rd.settings.initial_backoff_ms *
          rd.settings.backoff_multiplier ^ (rd.retry_count + 1)) % U64_MOD ∧
    rd.retry_count ≠ rd.settings.max_retries ∧
    rd.settings.max_retries ≠ 0 ∧
    rd.settings.backoff_multiplier ^ (rd.retry_count + 1) < U64_MOD := by
  unfold execute_step checked_pow at h
  repeat' split at h
  all_goals simp_all
  all_goals subst_vars
  all_goals omega


/-- A successful response terminates the iteration with the response. -/
theorem execute_step_success (r : Response) (rd : Option RetryData)
    (hs : status_is_success r.status = true) :
    execute_step true (SendOutcome.response r) rd =
      StepOutcome.done (Except.ok r) 1 := by
  simp [execute_step, hs]

/-- A failing response without retry state terminates with `err_response`. -/
theorem execute_step_fail_none (r : Response)
    (hf : status_is_success r.status = false) :
    execute_step true (SendOutcome.response r) none =
      StepOutcome.done (Except.error (err_response r)) 1 := by
  simp [execute_step, hf]

/-- A failing response with exhausted budget (counter equal to
`max_retries`, or `max_retries = 0`) terminates with `err_response`. -/
theorem execute_step_fail_budget (r : Response) (rd : RetryData)
    (hf : status_is_success r.status = false)
    (hstop : rd.retry_count = rd.settings.max_retries ∨ rd.settings.max_retries = 0) :
    execute_step true (SendOutcome.response r) (some rd) =
      StepOutcome.done (Except.error (err_response r)) 1 := by
  rcases hstop with h1 | h1 <;> simp [execute_step, hf, h1]

/-- A failing response with remaining budget and in-range exponentiation
produces a retry with the wrapped delay and the incremented counter. -/
theorem execute_step_fail_retry (r : Response) (rd : RetryData)
    (hf : status_is_success r.status = false)
    (hne : rd.retry_count ≠ rd.settings.max_retries)
    (hnz : rd.settings.max_retries ≠ 0)
    (hb : rd.settings.backoff_multiplier ^ (rd.retry_count + 1) < U64_MOD) :
    execute_step true (SendOutcome.response r) (some rd) =
      StepOutcome.retry
        ((rd.settings.initial_backoff_ms *
          rd.settings.backoff_multiplier ^ (rd.retry_count + 1)) % U64_MOD)
        { settings := rd.settings, retry_count := rd.retry_count + 1 } := by
  have hcp : checked_pow rd.settings.backoff_multiplier (rd.retry_count + 1) =
      some (rd.settings.backoff_multiplier ^ (rd.retry_count + 1)) := by
    unfold checked_pow
    rw [if_pos hb]
  simp [execute_step, hf, hne, hnz, hcp]

/-- Totality and bounds for chains whose initial counter does not exceed the
budget: with enough fuel the recursion terminates, performs at most
`max_retries - retry_count + 1` physical sends, enters at most that many
iterations, and the `i`-th iteration is entered with the original settings
and counter `c + i`. -/
theorem execute_rec_total (cl : Bool) (tr : Nat → SendOutcome) (s : RetrySettings) :
    ∀ fuel c idx, c ≤ s.max_retries → s.max_retries - c < fuel →
      ∃ t, execute_rec cl tr fuel (some { settings := s, retry_count := c }) idx = some t ∧
        t.sends ≤ s.max_retries - c + 1 ∧
        t.states.length ≤ s.max_retries - c + 1 ∧
        ∀ (i : Nat) (x : Option RetryData), t.states[i]? = some x →
          x = some { settings := s, retry_count := c + i } := by
  intro fuel
  induction fuel with
  | zero => intro c idx hc hf; omega
  | succ fuel ih =>
    intro c idx hc hf
    cases hstep : execute_step cl (tr idx) (some { settings := s, retry_count := c }) with
    | done res n =>
      refine ⟨{ result := res, sends := n, delays := [],
                states := [some { settings := s, retry_count := c }] }, ?_, ?_, ?_, ?_⟩
      · simp [execute_rec, hstep]
      · have := execute_step_done_sends_le hstep
        show n ≤ s.max_retries - c + 1
        omega
      · show 1 ≤ s.max_retries - c + 1
        omega
      · intro i x hx
        cases i with
        | zero => simp at hx; simp [← hx]
        | succ i => simp at hx
    | retry d next =>
      obtain ⟨hnext, hd, hne, hnz, hpow⟩ := execute_step_retry_spec hstep
      have hclt : c < s.max_retries := by
        simp at hne
        omega
      obtain ⟨rest, hrest, hsends, hlen, hget⟩ :=
        ih (c + 1) (idx + 1) (by omega) (by omega)
      refine ⟨{ result := rest.result, sends := 1 + rest.sends, delays := d :: rest.delays,
                states := some { settings := s, retry_count := c } :: rest.states },
              ?_, ?_, ?_, ?_⟩
      · simp only [execute_rec, hstep]
        rw [hnext, hrest]
      · show 1 + rest.sends ≤ s.max_retries - c + 1
        omega
      · show (some { settings := s, retry_count := c } :: rest.states).length ≤
          s.max_retries - c + 1
        simp
        omega
      · intro i x hx
        cases i with
        | zero => simp at hx; simp [← hx]
        | succ i =>
          simp only [List.getElem?_cons_succ] at hx
          have := hget i x hx
          have harith : c + 1 + i = c + (i + 1) := by omega
          rw [harith] at this
          exact this

/-- A cloneable chain that terminates performed at least one physical send. -/
theorem execute_rec_sends_pos {tr : Nat → SendOutcome} {fuel : Nat}
    {rd : Option RetryData} {idx : Nat} {t : ExecTrace}
    (h : execute_rec true tr fuel rd idx = some t) : 1 ≤ t.sends := by
  cases fuel with
  | zero => simp [execute_rec] at h
  | succ fuel =>
    cases hstep : execute_step true (tr idx) rd with
    | done res n =>
      have hn := execute_step_done_sends_one hstep
      simp only [execute_rec, hstep] at h
      cases h
      show 1 ≤ n
      omega
    | retry d next =>
      simp only [execute_rec, hstep] at h
      cases hrec : execute_rec true tr fuel (some next) (idx + 1) with
      | none => rw [hrec] at h; cases h
      | some rest =>
        rw [hrec] at h
        cases h
        show 1 ≤ 1 + rest.sends
        omega

/-- The delay slept before entering the `(i+1)`-st iteration of a chain
started at counter `c` is the wrapped product
`initial_backoff_ms * multiplier ^ (c + i + 1)`. -/
theorem execute_rec_delays (cl : Bool) (tr : Nat → SendOutcome) (s : RetrySettings) :
    ∀ fuel c idx t,
      execute_rec cl tr fuel (some { settings := s, retry_count := c }) idx = some t →
      ∀ i, i < t.delays.length →
        t.delays[i]? =
          some ((s.initial_backoff_ms * s.backoff_multiplier ^ (c + i + 1)) % U64_MOD) := by
  intro fuel
  induction fuel with
  | zero => intro c idx t h; simp [execute_rec] at h
  | succ fuel ih =>
    intro c idx t h
    cases hstep : execute_step cl (tr idx) (some { settings := s, retry_count := c }) with
    | done res n =>
      simp only [execute_rec, hstep] at h
      cases h
      intro i hi
      simp at hi
    | retry d next =>
      obtain ⟨hnext, hd, hne, hnz, hpow⟩ := execute_step_retry_spec hstep
      simp only [execute_rec, hstep] at h
      cases hrec : execute_rec cl tr fuel (some next) (idx + 1) with
      | none => rw [hrec] at h; cases h
      | some rest =>
        rw [hrec] at h
        cases h
        intro i hi
        cases i with
        | zero => simpa using hd
        | succ i =>
          simp only [List.getElem?_cons_succ]
          rw [hnext] at hrec
          have hlen : i < rest.delays.length := by
            simp at hi
            omega
          have hrec2 := ih (c + 1) (idx + 1) rest hrec i hlen
          have harith : c + 1 + i + 1 = c + (i + 1) + 1 := by omega
          rw [harith] at hrec2
          exact hrec2

/-- Running a chain at counter `c` against a transport that fails on sends
`c, …, n-1` and succeeds on send `n` returns the success after exactly
`n - c + 1` sends, provided the budget covers `n` and the backoff
exponentiation stays in u64 range. -/
theorem execute_rec_run (tr : Nat → SendOutcome) (s : RetrySettings) (n : Nat) :
    ∀ fuel c, c ≤ n → n ≤ s.max_retries → n - c < fuel →
      (∀ i, c ≤ i → i < n →
        ∃ r, tr i = SendOutcome.response r ∧ status_is_success r.status = false) →
      (∀ k, c < k → k ≤ n → s.backoff_multiplier ^ k < U64_MOD) →
      ∀ r, tr n = SendOutcome.response r → status_is_success r.status = true →
      ∃ t, execute_rec true tr fuel (some { settings := s, retry_count := c }) c = some t ∧
        t.result = Except.ok r ∧ t.sends = n - c + 1 := by
  intro fuel
  induction fuel with
  | zero =>
    intro c hcn hns hf
    omega
  | succ fuel ih =>
    intro c hcn hns hf hfail hpow r hr hsucc
    rcases Nat.eq_or_lt_of_le hcn with hceq | hclt
    · subst hceq
      have hstep : execute_step true (tr c) (some { settings := s, retry_count := c }) =
          StepOutcome.done (Except.ok r) 1 := by
        rw [hr]
        exact execute_step_success r _ hsucc
      refine ⟨{ result := Except.ok r, sends := 1, delays := [],
                states := [some { settings := s, retry_count := c }] }, ?_, rfl, ?_⟩
      · simp [execute_rec, hstep]
      · show 1 = c - c + 1
        omega
    · obtain ⟨r0, hr0, hf0⟩ := hfail c (Nat.le_refl c) hclt
      have hb : s.backoff_multiplier ^ (c + 1) < U64_MOD :=
        hpow (c + 1) (by omega) (by omega)
      have hstep : execute_step true (tr c) (some { settings := s, retry_count := c }) =
          StepOutcome.retry
            ((s.initial_backoff_ms * s.backoff_multiplier ^ (c + 1)) % U64_MOD)
            { settings := s, retry_count := c + 1 } := by
        rw [hr0]
        exact execute_step_fail_retry r0 _ hf0 (by simp; omega) (by simp; omega) hb
      obtain ⟨rest, hrest, hres, hsends⟩ :=
        ih (c + 1) (by omega) hns (by omega)
          (fun i hi1 hi2 => hfail i (by omega) hi2)
          (fun k hk1 hk2 => hpow k (by omega) hk2)
          r hr hsucc
      refine ⟨{ result := rest.result, sends := 1 + rest.sends,
                delays := ((s.initial_backoff_ms * s.backoff_multiplier ^ (c + 1)) % U64_MOD)
                  :: rest.delays,
                states := some { settings := s, retry_count := c } :: rest.states },
              ?_, ?_, ?_⟩
      · simp only [execute_rec, hstep]
        rw [hrest]
      · simpa using hres
      · show 1 + rest.sends = n - c + 1
        omega

/-- Unfolding of one terminated iteration of the recursion. -/
theorem execute_rec_done {cl : Bool} {tr : Nat → SendOutcome} {rd : Option RetryData}
    {idx fuel : Nat} {res : Except ApiError Response} {n : Nat}
    (hstep : execute_step cl (tr idx) rd = StepOutcome.done res n) :
    execute_rec cl tr (fuel + 1) rd idx =
      some { result := res, sends := n, delays := [], states := [rd] } := by
  simp [execute_rec, hstep]

/-- Unfolding of one retrying iteration of the recursion. -/
theorem execute_rec_step_retry {cl : Bool} {tr : Nat → SendOutcome} {rd : Option RetryData}
    {idx fuel : Nat} {d : Nat} {next : RetryData}
    (hstep : execute_step cl (tr idx) rd = StepOutcome.retry d next) :
    execute_rec cl tr (fuel + 1) rd idx =
      match execute_rec cl tr fuel (some next) (idx + 1) with
      | none => none
      | some rest =>
        some { result := rest.result, sends := 1 + rest.sends,
               delays := d :: rest.delays, states := rd :: rest.states } := by
  simp [execute_rec, hstep]

/-- On a 429/503 status `err_response` yields the rate-limited error, with
some (possibly absent) `Retry-After` hint. -/
theorem err_response_rate_limited (r : Response)
    (hs : r.status = 429 ∨ r.status = 503) :
    ∃ ra, err_response r = ApiError.TooManyRequests ra := by
  unfold err_response
  rw [if_pos hs]
  rcases hfind : r.headers.find? (fun h => header_name_eq_retry_after h.1) with _ | p
  · exact ⟨none, by simp only [hfind]⟩
  · rcases hv : header_value_to_str p.2 with _ | sv
    · exact ⟨none, by simp only [hfind, hv]⟩
    · rcases hp : parse_u64 sv with _ | nv
      · exact ⟨none, by simp only [hfind, hv, hp]⟩
      · exact ⟨some nv, by simp only [hfind, hv, hp]⟩

/-- A 429/503 status is not a success status. -/
theorem status_429_503_not_success (r : Response)
    (hs : r.status = 429 ∨ r.status = 503) :
    status_is_success r.status = false := by
  rcases hs with h | h <;> rw [h] <;> decide

/-- Applying `find?` with the same predicate is unchanged by `filter`. -/
theorem find_filter_same {α : Type} (p : α → Bool) (l : List α) :
    (l.filter p).find? p = l.find? p := by
  induction l with
  | nil => rfl
  | cons a l ih =>
    cases hpa : p a
    · simp [List.filter_cons, hpa, List.find?_cons_of_neg, ih]
    · simp [List.filter_cons, hpa, List.find?_cons_of_pos]

/-- C3: on a 429/503 response the rate-limit hint comes from exactly the
first `Retry-After` header (matched ASCII-case-insensitively): an absent
header yields `none`; a header whose value is valid ASCII and parses as a
base-10 u64 integer `n` yields `some n`; a malformed (non-ASCII or
non-numeric) value yields `none`; and headers other than `Retry-After`
never influence the result. -/
theorem retry_after_header_contract (s : Nat) (h : List (String × String))
    (hs : s = 429 ∨ s = 503) :
    (h.find? (fun q => header_name_eq_retry_after q.1) = none →
      err_response { status := s, headers := h } = ApiError.TooManyRequests none)
  ∧ (∀ (p : String × String) (n : Nat),
      h.find? (fun q => header_name_eq_retry_after q.1) = some p →
      (header_value_to_str p.2).bind parse_u64 = some n →
      err_response { status := s, headers := h } = ApiError.TooManyRequests (some n))
  ∧ (∀ (p : String × String),
      h.find? (fun q => header_name_eq_retry_after q.1) = some p →
      (header_value_to_str p.2).bind parse_u64 = none →
      err_response { status := s, headers := h } = ApiError.TooManyRequests none)
  ∧ err_response { status := s, headers := h } =
      err_response { status := s,
                     headers := h.filter (fun q => header_name_eq_retry_after q.1) } := by
  refine ⟨?_, ?_, ?_, ?_⟩
  · intro hfind
    unfold err_response
    rw [if_pos hs]
    simp only [hfind]
  · intro p n hfind hbind
    unfold err_response
    rw [if_pos hs]
    rcases hv : header_value_to_str p.2 with _ | sv
    · rw [hv] at hbind
      cases hbind
    · rw [hv] at hbind
      simp only [Option.some_bind] at hbind
      simp only [hfind, hv, hbind]
  · intro p hfind hbind
    unfold err_response
    rw [if_pos hs]
    rcases hv : header_value_to_str p.2 with _ | sv
    · simp only [hfind, hv]
    · rw [hv] at hbind
      simp only [Option.some_bind] at hbind
      simp only [hfind, hv, hbind]
  · unfold err_response
    rw [if_pos hs, if_pos hs, find_filter_same]

/-- Witness for the `Retry-After` contract at the spec's three examples:
`Retry-After: 120` gives `some 120`, an absent header gives `none`, and a
non-numeric value gives `none` (status 429). -/
theorem retry_after_header_contract_witness :
    err_response { status := 429, headers := [("Retry-After", "120")] } =
      ApiError.TooManyRequests (some 120) ∧
    err_response { status := 429, headers := [] } = ApiError.TooManyRequests none ∧
    err_response { status := 429, headers := [("Retry-After", "soon")] } =
      ApiError.TooManyRequests none :=
  ⟨(retry_after_header_contract 429 [("Retry-After", "120")] (Or.inl rfl)).2.1
      ("Retry-After", "120") 120 (by decide) (by decide),
   (retry_after_header_contract 429 [] (Or.inl rfl)).1 (by decide),
   (retry_after_header_contract 429 [("Retry-After", "soon")] (Or.inl rfl)).2.2.1
      ("Retry-After", "soon") (by decide) (by decide)⟩

/-- C7: a request builder that cannot be cloned fails with
`RequestBuilderClone` and performs zero physical sends, whatever the
transport would answer and whatever retry argument is supplied. -/
theorem non_clonable_request_no_send (tr : Nat → SendOutcome) (rd : Option RetryData) :
    execute_request false tr rd =
      some { result := Except.error ApiError.RequestBuilderClone, sends := 0,
             delays := [], states := [rd] } := by
  cases rd with
  | none => rfl
  | some d => rfl

/-- Transport answering 429 (no headers) on the first send and 200 on every
later send. -/
def tr_rate_limited_then_ok : Nat → SendOutcome := fun i =>
  if i = 0 then SendOutcome.response { status := 429, headers := [] }
  else SendOutcome.response { status := 200, headers := [] }

/-- Counterexample to C1 as stated: under the default policy (remaining
budget), a 429 response does not terminate the call as rate-limited — the
executor retries it like any other failure and returns the success of the
second send after sleeping 600 ms. -/
theorem rate_limited_retried_with_budget_cex :
    execute_request true tr_rate_limited_then_ok
        (some { settings := DEFAULT_RETRY_SETTINGS, retry_count := 0 }) =
      some { result := Except.ok { status := 200, headers := [] }, sends := 2,
             delays := [600],
             states := [some { settings := DEFAULT_RETRY_SETTINGS, retry_count := 0 },
                        some { settings := DEFAULT_RETRY_SETTINGS, retry_count := 1 }] } := by
  decide

/-- C1 (amended): a 429/503 response is a terminal rate-limited outcome of
the executor call exactly when the generic retry budget is unavailable or
exhausted — no retry state supplied, `retry_count = max_retries`, or
`max_retries = 0` — and is then produced after a single physical send.
With remaining budget the response enters the generic retry loop instead. -/
theorem rate_limited_terminal_without_budget (tr : Nat → SendOutcome) (r : Response)
    (rd : Option RetryData)
    (hr : tr 0 = SendOutcome.response r)
    (hs : r.status = 429 ∨ r.status = 503)
    (hbudget : rd = none ∨ ∃ d, rd = some d ∧
      (d.retry_count = d.settings.max_retries ∨ d.settings.max_retries = 0)) :
    ∃ ra, execute_request true tr rd =
      some { result := Except.error (ApiError.TooManyRequests ra), sends := 1,
             delays := [], states := [rd] } := by
  obtain ⟨ra, hra⟩ := err_response_rate_limited r hs
  have hfs : status_is_success r.status = false := status_429_503_not_success r hs
  refine ⟨ra, ?_⟩
  rw [← hra]
  rcases hbudget with hnone | ⟨d, hd, hstop⟩
  · subst hnone
    have hstep : execute_step true (tr 0) none =
        StepOutcome.done (Except.error (err_response r)) 1 := by
      rw [hr]
      exact execute_step_fail_none r hfs
    show execute_rec true tr 1 none 0 = _
    exact execute_rec_done hstep
  · subst hd
    have hstep : execute_step true (tr 0) (some d) =
        StepOutcome.done (Except.error (err_response r)) 1 := by
      rw [hr]
      exact execute_step_fail_budget r d hfs hstop
    show execute_rec true tr (d.settings.max_retries + 1) (some d) 0 = _
    exact execute_rec_done hstep

/-- Transport answering 429 (no headers) on every send. -/
def tr_rate_limited_always : Nat → SendOutcome := fun _ =>
  SendOutcome.response { status := 429, headers := [] }

/-- Witness: with no retry state, a 429 response terminates the call as
rate-limited after one send. -/
theorem rate_limited_terminal_without_budget_witness :
    ∃ ra, execute_request true tr_rate_limited_always none =
      some { result := Except.error (ApiError.TooManyRequests ra), sends := 1,
             delays := [], states := [none] } :=
  rate_limited_terminal_without_budget tr_rate_limited_always
    { status := 429, headers := [] } none rfl (Or.inl rfl) (Or.inl rfl)

/-- Retry settings whose first-retry delay product
`initial_backoff_ms * multiplier ^ 1 = 2^63 * 2` overflows u64 while the
exponentiation itself stays in range. -/
def overflow_mul_settings : RetrySettings :=
  { max_retries := 1, initial_backoff_ms := 2 ^ 63, backoff_multiplier := 2 }

/-- Transport answering 500 on the first send and 200 on every later send. -/
def tr_fail_once : Nat → SendOutcome := fun i =>
  if i = 0 then SendOutcome.response { status := 500, headers := [] }
  else SendOutcome.response { status := 200, headers := [] }

/-- C2 at the failing input: the delay computation `2^63 * 2^1 = 2^64`
overflows u64, yet the call does not fail with `BackoffOverflow` — only
`multiplier ^ attempt` is guarded by `checked_pow`, and the unchecked
multiplication by `initial_backoff_ms` wraps the delay to 0 ms (release
semantics; a debug build panics), after which the chain proceeds to the
success of the second send. -/
theorem backoff_mul_overflow_wraps :
    U64_MOD ≤ overflow_mul_settings.initial_backoff_ms *
      overflow_mul_settings.backoff_multiplier ^ 1 ∧
    execute_request true tr_fail_once
        (some { settings := overflow_mul_settings, retry_count := 0 }) =
      some { result := Except.ok { status := 200, headers := [] }, sends := 2,
             delays := [0],
             states := [some { settings := overflow_mul_settings, retry_count := 0 },
                        some { settings := overflow_mul_settings, retry_count := 1 }] } := by
  decide

/-- Transport answering 500 on the first two sends and 200 afterwards. -/
def tr_fail_twice : Nat → SendOutcome := fun i =>
  if i < 2 then SendOutcome.response { status := 500, headers := [] }
  else SendOutcome.response { status := 200, headers := [] }

/-- Retry settings whose second backoff exponentiation `(2^32)^2 = 2^64`
overflows u64. -/
def overflow_pow_settings : RetrySettings :=
  { max_retries := 2, initial_backoff_ms := 300, backoff_multiplier := 2 ^ 32 }

/-- Counterexample to C4 as stated: with `n = 2 ≤ max_retries = 2` failures
followed by a success, the call does not return the success in `n + 1 = 3`
sends — the second backoff exponentiation overflows and the call aborts
with `BackoffOverflow` after only 2 sends. -/
theorem retry_run_overflow_cex :
    execute_request true tr_fail_twice
        (some { settings := overflow_pow_settings, retry_count := 0 }) =
      some { result :=
               Except.error (ApiError.BackoffOverflow "exceeded maximum backoff value"),
             sends := 2, delays := [(300 * 2 ^ 32) % U64_MOD],
             states := [some { settings := overflow_pow_settings, retry_count := 0 },
                        some { settings := overflow_pow_settings, retry_count := 1 }] } := by
  decide

/-- C4 (amended): for every `n ≤ max_retries`, if the transport produces
`n` consecutive non-success responses followed by a success and every
backoff exponentiation `multiplier ^ k` for `1 ≤ k ≤ n` stays in u64
range, then the executor started at counter 0 returns that success and
performs exactly `n + 1` physical sends. -/
theorem retry_run_returns_success (tr : Nat → SendOutcome) (s : RetrySettings)
    (n : Nat) (r : Response)
    (hn : n ≤ s.max_retries)
    (hpow : ∀ k, k ≤ n → 1 ≤ k → s.backoff_multiplier ^ k < U64_MOD)
    (hfail : ∀ i, i < n →
      ∃ r0, tr i = SendOutcome.response r0 ∧ status_is_success r0.status = false)
    (hr : tr n = SendOutcome.response r)
    (hsucc : status_is_success r.status = true) :
    ∃ t, execute_request true tr (some { settings := s, retry_count := 0 }) = some t ∧
      t.result = Except.ok r ∧ t.sends = n + 1 := by
  obtain ⟨t, ht, hres, hsends⟩ :=
    execute_rec_run tr s n (s.max_retries + 1) 0 (Nat.zero_le n) hn (by omega)
      (fun i hi1 hi2 => hfail i hi2)
      (fun k hk1 hk2 => hpow k hk2 hk1)
      r hr hsucc
  refine ⟨t, ?_, hres, by omega⟩
  show execute_rec true tr (s.max_retries + 1) (some { settings := s, retry_count := 0 }) 0 =
    some t
  exact ht

/-- Witness: under the default policy, two failures then a success yield
the success after exactly three sends. -/
theorem retry_run_returns_success_witness :
    ∃ t, execute_request true tr_fail_twice
        (some { settings := DEFAULT_RETRY_SETTINGS, retry_count := 0 }) = some t ∧
      t.result = Except.ok { status := 200, headers := [] } ∧ t.sends = 3 :=
  retry_run_returns_success tr_fail_twice DEFAULT_RETRY_SETTINGS 2
    { status := 200, headers := [] } (by decide)
    (fun k hk1 hk2 => by interval_cases k <;> decide)
    (fun i hi => ⟨{ status := 500, headers := [] },
      by simp only [tr_fail_twice]; rw [if_pos hi], rfl⟩)
    (by decide) (by decide)

/-- Counterexample to C5 as stated: with `initial_backoff_ms = 2^63` and
`multiplier = 2`, the delay slept before the first retry is 0 ms, whereas
the exact product `initial_backoff_ms * multiplier ^ 1` is `2^64 ≠ 0`. -/
theorem retry_delay_wrapped_cex :
    Option.map ExecTrace.delays
        (execute_request true tr_fail_once
          (some { settings := overflow_mul_settings, retry_count := 0 })) = some [0] ∧
    overflow_mul_settings.initial_backoff_ms *
        overflow_mul_settings.backoff_multiplier ^ 1 = U64_MOD ∧
    U64_MOD ≠ 0 := by
  decide

/-- C5 (amended): whenever a `k`-th retry occurs (`1 ≤ k`, `k` at most the
number of slept delays), the delay slept before it is
`(initial_backoff_ms * multiplier ^ k) % 2^64` — the exponent starts at 1
for the first retry — and equals the exact product
`initial_backoff_ms * multiplier ^ k` whenever that product fits in u64. -/
theorem retry_delay_formula (tr : Nat → SendOutcome) (s : RetrySettings)
    (t : ExecTrace) (k : Nat)
    (hexec : execute_request true tr (some { settings := s, retry_count := 0 }) = some t)
    (hk1 : 1 ≤ k) (hk2 : k ≤ t.delays.length) :
    t.delays[k - 1]? =
      some ((s.initial_backoff_ms * s.backoff_multiplier ^ k) % U64_MOD) ∧
    (s.initial_backoff_ms * s.backoff_multiplier ^ k < U64_MOD →
      t.delays[k - 1]? = some (s.initial_backoff_ms * s.backoff_multiplier ^ k)) := by
  have hrec : execute_rec true tr (s.max_retries + 1)
      (some { settings := s, retry_count := 0 }) 0 = some t := hexec
  have h1 := execute_rec_delays true tr s (s.max_retries + 1) 0 0 t hrec (k - 1) (by omega)
  have harith : 0 + (k - 1) + 1 = k := by omega
  rw [harith] at h1
  exact ⟨h1, fun hlt => by rw [h1, Nat.mod_eq_of_lt hlt]⟩

/-- Witness: under the default policy with two failures then a success, the
delay slept before the second retry is exactly `300 * 2^2 = 1200` ms. -/
theorem retry_delay_formula_witness :
    ({ result := Except.ok { status := 200, headers := [] }, sends := 3,
       delays := [600, 1200],
       states := [some { settings := DEFAULT_RETRY_SETTINGS, retry_count := 0 },
                  some { settings := DEFAULT_RETRY_SETTINGS, retry_count := 1 },
                  some { settings := DEFAULT_RETRY_SETTINGS, retry_count := 2 }] } :
      ExecTrace).delays[2 - 1]? =
      some ((DEFAULT_RETRY_SETTINGS.initial_backoff_ms *
        DEFAULT_RETRY_SETTINGS.backoff_multiplier ^ 2) % U64_MOD) ∧
    (DEFAULT_RETRY_SETTINGS.initial_backoff_ms *
        DEFAULT_RETRY_SETTINGS.backoff_multiplier ^ 2 < U64_MOD →
      ({ result := Except.ok { status := 200, headers := [] }, sends := 3,
         delays := [600, 1200],
         states := [some { settings := DEFAULT_RETRY_SETTINGS, retry_count := 0 },
                    some { settings := DEFAULT_RETRY_SETTINGS, retry_count := 1 },
                    some { settings := DEFAULT_RETRY_SETTINGS, retry_count := 2 }] } :
        ExecTrace).delays[2 - 1]? =
        some (DEFAULT_RETRY_SETTINGS.initial_backoff_ms *
          DEFAULT_RETRY_SETTINGS.backoff_multiplier ^ 2)) :=
  retry_delay_formula tr_fail_twice DEFAULT_RETRY_SETTINGS _ 2
    (by decide) (by decide) (by decide)

/-- Retry settings with retrying disabled (`max_retries = 0`). -/
def no_retry_settings : RetrySettings :=
  { max_retries := 0, initial_backoff_ms := 300, backoff_multiplier := 2 }

/-- Counterexample to C6 as stated: with `max_retries = 0` a failing 429
response yields the rate-limited error `TooManyRequests none` after one
send, not `UnexpectedStatusCode 429`. -/
theorem max_retries_zero_rate_limited_cex :
    execute_request true tr_rate_limited_always
        (some { settings := no_retry_settings, retry_count := 0 }) =
      some { result := Except.error (ApiError.TooManyRequests none), sends := 1,
             delays := [],
             states := [some { settings := no_retry_settings, retry_count := 0 }] } ∧
    ApiError.TooManyRequests none ≠ ApiError.UnexpectedStatusCode 429 := by
  decide

/-- C6 (amended): with `max_retries = 0` the executor performs exactly one
physical send on a failing response and fails fast with `err_response`,
even when retry state is supplied and whatever its counter is — the
exhaustion check precedes the counter increment and no derived state is
entered.  `err_response` is `UnexpectedStatusCode status` for every failing
status other than 429 and 503 (for 429/503 it is the rate-limited error). -/
theorem max_retries_zero_fail_fast (tr : Nat → SendOutcome) (s : RetrySettings)
    (c : Nat) (r : Response)
    (h0 : s.max_retries = 0)
    (hr : tr 0 = SendOutcome.response r)
    (hf : status_is_success r.status = false) :
    execute_request true tr (some { settings := s, retry_count := c }) =
      some { result := Except.error (err_response r), sends := 1, delays := [],
             states := [some { settings := s, retry_count := c }] } ∧
    (r.status ≠ 429 → r.status ≠ 503 →
      err_response r = ApiError.UnexpectedStatusCode r.status) := by
  constructor
  · have hstep : execute_step true (tr 0) (some { settings := s, retry_count := c }) =
        StepOutcome.done (Except.error (err_response r)) 1 := by
      rw [hr]
      exact execute_step_fail_budget r _ hf (Or.inr h0)
    show execute_rec true tr (s.max_retries + 1)
      (some { settings := s, retry_count := c }) 0 = _
    exact execute_rec_done hstep
  · intro h429 h503
    unfold err_response
    rw [if_neg (show ¬(r.status = 429 ∨ r.status = 503) from
      fun hor => hor.elim h429 h503)]

/-- Transport answering 500 on every send. -/
def tr_server_error_always : Nat → SendOutcome := fun _ =>
  SendOutcome.response { status := 500, headers := [] }

/-- Witness: with `max_retries = 0` a failing 500 response fails fast after
one send with `UnexpectedStatusCode 500`. -/
theorem max_retries_zero_fail_fast_witness :
    execute_request true tr_server_error_always
        (some { settings := no_retry_settings, retry_count := 0 }) =
      some { result := Except.error (err_response { status := 500, headers := [] }),
             sends := 1, delays := [],
             states := [some { settings := no_retry_settings, retry_count := 0 }] } ∧
    (({ status := 500, headers := [] } : Response).status ≠ 429 →
     ({ status := 500, headers := [] } : Response).status ≠ 503 →
      err_response { status := 500, headers := [] } =
        ApiError.UnexpectedStatusCode ({ status := 500, headers := [] } : Response).status) :=
  max_retries_zero_fail_fast tr_server_error_always no_retry_settings 0
    { status := 500, headers := [] } rfl rfl rfl

/-- C8: every chain started within budget terminates; each (recursive)
invocation is entered with a counter that grows by exactly one per step and
never exceeds `max_retries`, and the number of physical sends is bounded by
`max_retries - retry_count + 1` (so by `max_retries + 1` from attempt 0). -/
theorem retry_chain_terminates_bounded (cl : Bool) (tr : Nat → SendOutcome)
    (s : RetrySettings) (c : Nat) (hc : c ≤ s.max_retries) :
    ∃ t, execute_request cl tr (some { settings := s, retry_count := c }) = some t ∧
      t.sends ≤ s.max_retries - c + 1 ∧
      t.states.length ≤ s.max_retries - c + 1 ∧
      ∀ (i : Nat) (x : Option RetryData), t.states[i]? = some x →
        x = some { settings := s, retry_count := c + i } ∧ c + i ≤ s.max_retries := by
  obtain ⟨t, ht, hsends, hlen, hget⟩ :=
    execute_rec_total cl tr s (s.max_retries + 1) c 0 hc (by omega)
  refine ⟨t, ?_, hsends, hlen, ?_⟩
  · show execute_rec cl tr (s.max_retries + 1)
      (some { settings := s, retry_count := c }) 0 = some t
    exact ht
  · intro i x hx
    refine ⟨hget i x hx, ?_⟩
    have hilen : i < t.states.length := by
      by_contra hcon
      push_neg at hcon
      rw [List.getElem?_eq_none hcon] at hx
      cases hx
    omega

/-- Witness: a chain under the default policy against permanent 429
responses terminates with at most six sends and monotone counters. -/
theorem retry_chain_terminates_bounded_witness :
    ∃ t, execute_request true tr_rate_limited_always
        (some { settings := DEFAULT_RETRY_SETTINGS, retry_count := 0 }) = some t ∧
      t.sends ≤ DEFAULT_RETRY_SETTINGS.max_retries - 0 + 1 ∧
      t.states.length ≤ DEFAULT_RETRY_SETTINGS.max_retries - 0 + 1 ∧
      ∀ (i : Nat) (x : Option RetryData), t.states[i]? = some x →
        x = some { settings := DEFAULT_RETRY_SETTINGS, retry_count := 0 + i } ∧
        0 + i ≤ DEFAULT_RETRY_SETTINGS.max_retries :=
  retry_chain_terminates_bounded true tr_rate_limited_always DEFAULT_RETRY_SETTINGS 0
    (by decide)

/-- C9: the retry settings are never mutated by the executor — every
(recursive) invocation of a chain started at attempt 0 is entered with
retry state carrying exactly the settings the chain started with, only the
transient counter differing from state to state. -/
theorem retry_settings_preserved (cl : Bool) (tr : Nat → SendOutcome)
    (s : RetrySettings) :
    ∃ t, execute_request cl tr (some { settings := s, retry_count := 0 }) = some t ∧
      ∀ x, x ∈ t.states → ∃ i, x = some { settings := s, retry_count := i } := by
  obtain ⟨t, ht, hsends, hlen, hget⟩ :=
    execute_rec_total cl tr s (s.max_retries + 1) 0 0 (Nat.zero_le _) (by omega)
  refine ⟨t, ?_, ?_⟩
  · show execute_rec cl tr (s.max_retries + 1)
      (some { settings := s, retry_count := 0 }) 0 = some t
    exact ht
  · intro x hx
    obtain ⟨i, hxi⟩ := List.mem_iff_getElem?.mp hx
    refine ⟨i, ?_⟩
    have := hget i x hxi
    simpa using this

/-- With remaining budget (`max_retries ≠ 0`) and an in-range multiplier, a
failing first response is retried: the chain performs at least two physical
sends. -/
theorem retry_happens_when_budget (tr : Nat → SendOutcome) (s : RetrySettings)
    (hmult : s.backoff_multiplier < U64_MOD) (hnz : s.max_retries ≠ 0)
    (r : Response) (hr : tr 0 = SendOutcome.response r)
    (hf : status_is_success r.status = false) :
    ∃ t, execute_request true tr (some { settings := s, retry_count := 0 }) = some t ∧
      2 ≤ t.sends := by
  have hb : s.backoff_multiplier ^ (0 + 1) < U64_MOD := by
    simpa using hmult
  have hstep : execute_step true (tr 0) (some { settings := s, retry_count := 0 }) =
      StepOutcome.retry
        ((s.initial_backoff_ms * s.backoff_multiplier ^ (0 + 1)) % U64_MOD)
        { settings := s, retry_count := 0 + 1 } := by
    rw [hr]
    exact execute_step_fail_retry r { settings := s, retry_count := 0 } hf
      (fun h => hnz h.symm) hnz hb
  obtain ⟨rest, hrest, hs1, hs2, hs3⟩ :=
    execute_rec_total true tr s s.max_retries 1 1 (by omega) (by omega)
  have hpos : 1 ≤ rest.sends := execute_rec_sends_pos hrest
  refine ⟨{ result := rest.result, sends := 1 + rest.sends,
            delays := ((s.initial_backoff_ms * s.backoff_multiplier ^ (0 + 1)) % U64_MOD)
              :: rest.delays,
            states := some { settings := s, retry_count := 0 } :: rest.states }, ?_, ?_⟩
  · show execute_rec true tr (s.max_retries + 1)
      (some { settings := s, retry_count := 0 }) 0 = _
    rw [execute_rec_step_retry hstep]
    simp only [Nat.zero_add]
    rw [hrest]
  · show 2 ≤ 1 + rest.sends
    omega

/-- C10: the public client never disables retrying by omission — every
resource fetcher substitutes the default policy
`{initial_backoff_ms := 300, max_retries := 5, backoff_multiplier := 2}`
when `retry_settings = none` and always hands the executor retry state at
attempt 0 (all fetcher retry arguments coincide, and every client method
forwards its stored settings to its fetcher), so the executor's
no-retry-state path is unreachable from the public client; with retry state
present, a failing first response is retried whenever `max_retries ≠ 0` (at
least two sends), and supplying settings with `max_retries = 0` is the only
way to disable retrying (exactly one send). -/
theorem client_always_supplies_retry_state (client : WegLiApiClient)
    (rs : Option RetrySettings) (s : RetrySettings) (tr : Nat → SendOutcome)
    (r : Response)
    (hmult : s.backoff_multiplier < U64_MOD) (hnz : s.max_retries ≠ 0)
    (hr : tr 0 = SendOutcome.response r) (hf : status_is_success r.status = false) :
    get_charge_retry_arg rs =
      some { settings := rs.getD DEFAULT_RETRY_SETTINGS, retry_count := 0 } ∧
    get_charges_retry_arg rs = get_charge_retry_arg rs ∧
    get_notice_retry_arg rs = get_charge_retry_arg rs ∧
    get_notices_retry_arg rs = get_charge_retry_arg rs ∧
    get_district_retry_arg rs = get_charge_retry_arg rs ∧
    get_districts_retry_arg rs = get_charge_retry_arg rs ∧
    get_exports_retry_arg rs = get_charge_retry_arg rs ∧
    download_latest_export_retry_arg rs = get_charge_retry_arg rs ∧
    client.get_notice_arg = get_notice_retry_arg client.retry_settings ∧
    client.get_notices_arg = get_notices_retry_arg client.retry_settings ∧
    client.get_charge_arg = get_charge_retry_arg client.retry_settings ∧
    client.get_charges_arg = get_charges_retry_arg client.retry_settings ∧
    client.get_district_arg = get_district_retry_arg client.retry_settings ∧
    client.get_districts_arg = get_districts_retry_arg client.retry_settings ∧
    client.get_user_exports_arg = get_exports_retry_arg client.retry_settings ∧
    client.get_public_exports_arg = get_exports_retry_arg client.retry_settings ∧
    client.download_latest_export_arg =
      download_latest_export_retry_arg client.retry_settings ∧
    DEFAULT_RETRY_SETTINGS =
      { initial_backoff_ms := 300, max_retries := 5, backoff_multiplier := 2 } ∧
    (∃ t, execute_request true tr (some { settings := s, retry_count := 0 }) = some t ∧
      2 ≤ t.sends) ∧
    (∀ s0 : RetrySettings, s0.max_retries = 0 →
      ∃ t, execute_request true tr (some { settings := s0, retry_count := 0 }) = some t ∧
        t.sends = 1) := by
  refine ⟨?_, rfl, rfl, rfl, rfl, rfl, rfl, rfl, rfl, rfl, rfl, rfl, rfl, rfl, rfl, rfl,
    rfl, rfl, ?_, ?_⟩
  · cases rs <;> rfl
  · exact retry_happens_when_budget tr s hmult hnz r hr hf
  · intro s0 h0
    have hstep : execute_step true (tr 0) (some { settings := s0, retry_count := 0 }) =
        StepOutcome.done (Except.error (err_response r)) 1 := by
      rw [hr]
      exact execute_step_fail_budget r _ hf (Or.inr h0)
    refine ⟨{ result := Except.error (err_response r), sends := 1, delays := [],
              states := [some { settings := s0, retry_count := 0 }] }, ?_, rfl⟩
    show execute_rec true tr (s0.max_retries + 1)
      (some { settings := s0, retry_count := 0 }) 0 = _
    exact execute_rec_done hstep

/-- Witness: with `retry_settings = none` the charge fetcher hands the
executor the default policy at attempt 0, and under that policy a failing
first response leads to at least two sends. -/
theorem client_always_supplies_retry_state_witness :
    get_charge_retry_arg none =
      some { settings := Option.getD none DEFAULT_RETRY_SETTINGS, retry_count := 0 } ∧
    (∃ t, execute_request true tr_server_error_always
        (some { settings := DEFAULT_RETRY_SETTINGS, retry_count := 0 }) = some t ∧
      2 ≤ t.sends) := by
  obtain ⟨h1, h2, h3, h4, h5, h6, h7, h8, h9, h10, h11, h12, h13, h14, h15, h16, h17,
    h18, h19, h20⟩ :=
    client_always_supplies_retry_state
      { api_url := "", api_token := "", retry_settings := none } none
      DEFAULT_RETRY_SETTINGS tr_server_error_always { status := 500, headers := [] }
      (by decide) (by decide) rfl rfl
  exact ⟨h1, h19⟩

end WegLi
